import Mathlib

/-!
Verification of the youtube_api repository against its specification.

The repository is a small Flask HTTP service (src/app.py and
src/api/index.py).  The pure logic — the video-identifier resolver
(the `youtube_regex` in `extract_video_id`), the metadata-building
function `get_video_metadata` and the two `/api/extract` request
handlers — is shallowly embedded below.  External collaborators
(the YouTube Data API, the transcript library, the isodate duration
parser) appear as explicit outcome values or as small models of their
documented interface.  The multi-tier transcript fallback engine
described by the specification does not appear in src/ and is
modelled from the specification's own words; those definitions are
marked `Modelled from the spec:`.
-/

/-! ## Video identifier resolver (src/app.py `extract_video_id`)

The Python function matches the anchored regular expression

  (https?://)?(www\.)?(youtube|youtu|youtube-nocookie)\.(com|be)/(watch\?v=|embed/|v/|.+\?v=)?([^&=%\?]{11})

with `re.match` (leftmost match at position 0, backtracking, ordered
alternation, greedy quantifiers) and returns group 6.  The embedding
compiles this fixed pattern into ordered alternatives over `List Char`:
`alt` is ordered alternation, `stripP` literal matching, `g6run` the
final token class `[^&=%\?]{11}`, and `dotPlusQvAux` the greedy
backtracking of the `.+\?v=` alternative (longest prefix first, `.`
not matching a newline). -/

def alt {α : Type} (a b : Option α) : Option α :=
  match a with
  | some x => some x
  | none => b

def stripP : List Char → List Char → Option (List Char)
  | [], l => some l
  | _ :: _, [] => none
  | p :: ps, c :: cs => if c = p then stripP ps cs else none

/-- Characters excluded by the token class `[^&=%\?]` of the regex. -/
def excludedChar (c : Char) : Bool :=
  c = '&' || c = '=' || c = '%' || c = '?'

/-- Group 6 of the regex: exactly 11 characters, none of them `&`, `=`, `%`, `?`.
`re.match` does not anchor the end of the string, so trailing input is ignored. -/
def g6run (l : List Char) : Option String :=
  if (l.take 11).length = 11 ∧ (∀ c ∈ l.take 11, excludedChar c = false) then
    some (String.mk (l.take 11))
  else none

/-- Does `\?v=` match at offset `k`? -/
def qvAt (l : List Char) (k : Nat) : Bool :=
  match l.drop k with
  | a :: b :: c :: _ => a = '?' && b = 'v' && c = '='
  | _ => false

/-- The first `k` characters contain no newline (Python `.` does not match a newline). -/
def noNl (l : List Char) (k : Nat) : Bool := (l.take k).all (fun c => !(c = '\n'))

/-- Backtracking of `.+\?v=` followed by group 6: the greedy `.+` tries the
longest newline-free prefix first, then shorter ones. -/
def dotPlusQvAux (l : List Char) : Nat → Option String
  | 0 => none
  | k + 1 =>
    alt (if noNl l (k + 1) && qvAt l (k + 1) then g6run (l.drop (k + 4)) else none)
      (dotPlusQvAux l k)

def dotPlusQv (l : List Char) : Option String := dotPlusQvAux l l.length

/-- Group 5 `(watch\?v=|embed/|v/|.+\?v=)?`: ordered alternatives, then the
empty option, each followed by group 6. -/
def g5run (l : List Char) : Option String :=
  alt ((stripP ("watch?v=".data) l).bind g6run)
    (alt ((stripP ("embed/".data) l).bind g6run)
      (alt ((stripP ("v/".data) l).bind g6run)
        (alt (dotPlusQv l) (g6run l))))

/-- Group 4 `(com|be)` followed by the literal `/`. -/
def domRun (l : List Char) : Option String :=
  alt ((stripP ("com/".data) l).bind g5run) ((stripP ("be/".data) l).bind g5run)

/-- Group 3 `(youtube|youtu|youtube-nocookie)` followed by the literal `\.`. -/
def hostRun (l : List Char) : Option String :=
  alt ((stripP ("youtube.".data) l).bind domRun)
    (alt ((stripP ("youtu.".data) l).bind domRun)
      ((stripP ("youtube-nocookie.".data) l).bind domRun))

/-- Group 2 `(www\.)?`. -/
def wwwRun (l : List Char) : Option String :=
  alt ((stripP ("www.".data) l).bind hostRun) (hostRun l)

/-- Group 1 `(https?://)?`: greedy, so `https://` is tried before `http://`
before the empty option. -/
def schemeRun (l : List Char) : Option String :=
  alt ((stripP ("https://".data) l).bind wwwRun)
    (alt ((stripP ("http://".data) l).bind wwwRun) (wwwRun l))

/-- Embedding of src/app.py `extract_video_id` (identical in src/api/index.py):
`re.match(youtube_regex, url)` returning group 6, or `None`. -/
def extract_video_id (url : String) : Option String := schemeRun url.data

/-- URL-safe identifier characters named by the specification:
letters, digits, `-`, `_`. -/
def urlSafeChar (c : Char) : Bool :=
  c.isAlpha || c.isDigit || c = '-' || c = '_'

/-- Scheme and `www.` prefixes accepted by the regex in front of a host. -/
def urlPrefixes : List String :=
  ["", "http://", "https://", "www.", "http://www.", "https://www."]

/-- Shape of every token the regex can return: exactly 11 characters, none of
them `&`, `=`, `%`, `?`. -/
def tokenShape (t : String) : Prop :=
  t.length = 11 ∧ ∀ c ∈ t.data, excludedChar c = false

/-- Whitespace stripped by Python's `str.strip` and `int(str)`. -/
def wsChar (c : Char) : Bool := c = ' ' || c = '\t' || c = '\n' || c = '\r'

/-- Strip leading and trailing whitespace, as Python `str.strip()`. -/
def trimWs (l : List Char) : List Char :=
  ((l.dropWhile wsChar).reverse.dropWhile wsChar).reverse

/-- ASCII lower-casing of one character, as Python `str.lower()` on the
ASCII inputs at hand. -/
def lowerChar (c : Char) : Char :=
  if 'A' ≤ c ∧ c ≤ 'Z' then Char.ofNat (c.toNat + 32) else c

def toLowerL (l : List Char) : List Char := l.map lowerChar

/-! ## JSON-like values and HTTP responses

Flask's `jsonify` serialises Python dicts; only the field structure matters
here, so objects are association lists in insertion order.  Metadata dicts
hold only strings and integers (`JLeaf`); a response body may additionally
nest one metadata object (`JVal.obj`). -/

inductive JLeaf where
  | s (v : String)
  | i (v : Int)
deriving DecidableEq

abbrev JObj := List (String × JLeaf)

inductive JVal where
  | leaf (v : JLeaf)
  | obj (o : JObj)
deriving DecidableEq

abbrev JBody := List (String × JVal)

/-- Lift a flat dict into a response body, as `jsonify(metadata)` does. -/
def jsonOfObj (o : JObj) : JBody := o.map (fun kv => (kv.1, JVal.leaf kv.2))

inductive RespBody where
  | jsonB (o : JBody)
  | rawB (v : String)
deriving DecidableEq

structure HResponse where
  body : RespBody
  status : Nat
deriving DecidableEq

def bodyKeys (r : HResponse) : List String :=
  match r.body with
  | .jsonB o => o.map Prod.fst
  | .rawB _ => []

/-! ## The metadata provider interface (src/app.py `get_video_metadata`)

The outbound call to the YouTube Data API is abstracted as its outcome: a
`requests` exception (from the request itself or `raise_for_status`), a
`.json()` parse failure (a `ValueError`, caught by the
`(KeyError, ValueError, AttributeError)` handler), or a parsed payload whose
`items` list carries the optional fields the code reads.  YouTube returns
`viewCount` as a decimal string, which the code pushes through `int(...)`. -/

structure ApiItem where
  title : Option String
  channelTitle : Option String
  description : Option String
  publishedAt : Option String
  duration : Option String
  viewCount : Option String
deriving DecidableEq

inductive ApiOutcome where
  | httpErr (msg : String)
  | badJson (msg : String)
  | ok (items : List ApiItem)
deriving DecidableEq

/-- Digits prefix of a character list, with the remainder. -/
def takeDigits : List Char → (List Char × List Char)
  | [] => ([], [])
  | c :: cs =>
    if c.isDigit then
      let r := takeDigits cs
      (c :: r.1, r.2)
    else ([], c :: cs)

def digitsToNat (l : List Char) : Nat := l.foldl (fun a c => a * 10 + (c.toNat - 48)) 0

/-- Parse one `<digits><marker>` component, e.g. `15M`. -/
def compOpt (l : List Char) (m : Char) : Option (Nat × List Char) :=
  match takeDigits l with
  | ([], _) => none
  | (ds, c :: cs) => if c = m then some (digitsToNat ds, cs) else none
  | (_, []) => none

/-- Optional duration component: value, remainder, and whether it was present. -/
def durComp (l : List Char) (m : Char) : Nat × List Char × Bool :=
  match compOpt l m with
  | some (n, r) => (n, r, true)
  | none => (0, l, false)

/-- Modelled from the spec: the external `isodate.parse_duration(...).total_seconds()`
pipeline of `get_video_metadata` (the isodate library is not part of this
repository).  It accepts unsigned ISO-8601 durations with integer components —
the shape the metadata provider emits (`PnW` or `PnDTnHnMnS` with every
component optional but at least one present).  Durations it cannot parse
(including year/month durations, on which the Python pipeline also fails, with
an `AttributeError`) yield `none`, which the caller turns into an error
dictionary exactly as the `except (KeyError, ValueError, AttributeError)`
handler does. -/
def parse_duration_seconds (s : String) : Option Nat :=
  match s.data with
  | 'P' :: rest =>
    match compOpt rest 'W' with
    | some (w, []) => some (w * 604800)
    | _ =>
      let dc := durComp rest 'D'
      match dc.2.1 with
      | [] => if dc.2.2 then some (dc.1 * 86400) else none
      | 'T' :: l2 =>
        let hc := durComp l2 'H'
        let mc := durComp hc.2.1 'M'
        let sc := durComp mc.2.1 'S'
        if sc.2.1 = [] ∧ (hc.2.2 || mc.2.2 || sc.2.2) then
          some (dc.1 * 86400 + hc.1 * 3600 + mc.1 * 60 + sc.1)
        else none
      | _ => none
  | _ => none

/-- Modelled from the spec: Python's `int(str)` on the provider's view-count
strings — optional sign and decimal digits after stripping whitespace,
`none` when `int` would raise `ValueError`. -/
def pyIntOfString (s : String) : Option Int :=
  match trimWs s.data with
  | '-' :: ds => if ds ≠ [] ∧ ds.all Char.isDigit then some (-(digitsToNat ds : Int)) else none
  | '+' :: ds => if ds ≠ [] ∧ ds.all Char.isDigit then some ((digitsToNat ds : Int)) else none
  | ds => if ds ≠ [] ∧ ds.all Char.isDigit then some ((digitsToNat ds : Int)) else none

/-- `int(statistics.get("viewCount", 0))`: the default `0` is already an int;
a present value goes through `int(...)`. -/
def viewCountVal (it : ApiItem) : Option Int :=
  match it.viewCount with
  | none => some 0
  | some s => pyIntOfString s

/-- The f-string `https://www.youtube.com/watch?v={video_id}` of
`get_video_metadata`. -/
def canonical_video_url (video_id : String) : String :=
  "https://www.youtube.com/watch?v=" ++ video_id

/-- Embedding of src/app.py `get_video_metadata` (src/api/index.py's copy only
differs in where the API key placed into the request parameters comes from,
which is absorbed by the abstract `ApiOutcome`).  Every exception raised inside
the Python `try` block is caught and turned into a one-key error dictionary;
the duration is parsed before the metadata dict is built, so a bad duration
shadows a bad view count. -/
def get_video_metadata (video_id : String) (outcome : ApiOutcome) : JObj :=
  match outcome with
  | .httpErr m => [("error", .s ("YouTube API error: " ++ m))]
  | .badJson m => [("error", .s ("Error processing YouTube data: " ++ m))]
  | .ok [] => [("error", .s "Video not found or not accessible")]
  | .ok (item :: _) =>
    match parse_duration_seconds (item.duration.getD "PT0S") with
    | none => [("error", .s "Error processing YouTube data: unparsable ISO-8601 duration")]
    | some dsec =>
      match viewCountVal item with
      | none => [("error", .s "Error processing YouTube data: invalid literal for int")]
      | some vc =>
        [("video_id", .s video_id),
         ("video_url", .s (canonical_video_url video_id)),
         ("title", .s (item.title.getD "Title not available")),
         ("channel_name", .s (item.channelTitle.getD "Channel name not available")),
         ("description", .s (item.description.getD "Description not available")),
         ("publish_date", .s (item.publishedAt.getD "Publish date not available")),
         ("view_count", .i vc),
         ("duration_seconds", .i (dsec : Int))]

def lookupKey (o : JObj) (k : String) : Option JLeaf :=
  (o.find? (fun kv => kv.1 == k)).map Prod.snd

/-! ## The `/api/extract` handlers -/

/-- Outcome of `YouTubeTranscriptApi.get_transcript`: the `text` fields of the
returned items, or any raised exception. -/
inductive TranscriptFetch where
  | ok (items : List String)
  | exn (msg : String)
deriving DecidableEq

deriving instance DecidableEq for Except

/-- An inbound request as the handlers observe it: the HTTP method, the
`X-API-Key` header (`none` when absent or empty — both falsy in Python; only
src/api/index.py reads it), `request.is_json`, and the outcome of
`request.get_json()` — an exception message, or the truthy `youtube_url`
value if there is one (`none` when the body or the field is missing/falsy). -/
structure ExtractRequest where
  method : String
  apiKey : Option String
  isJson : Bool
  jsonParse : Except String (Option String)
deriving DecidableEq

/-- Embedding of src/app.py `extract_metadata` (the `/api/extract` handler). -/
def App.extract_metadata (req : ExtractRequest) (api : ApiOutcome) (tr : TranscriptFetch) :
    HResponse :=
  if req.method = "OPTIONS" then ⟨.rawB "", 200⟩
  else if req.isJson then
    match req.jsonParse with
    | .error e => ⟨.jsonB [("error", .leaf (.s ("Invalid JSON format: " ++ e)))], 400⟩
    | .ok none => ⟨.jsonB [("error", .leaf (.s "'youtube_url' is required"))], 400⟩
    | .ok (some url) =>
      match extract_video_id url with
      | none => ⟨.jsonB [("error", .leaf (.s "Could not extract valid YouTube video ID"))], 400⟩
      | some vid =>
        let metadata := get_video_metadata vid api
        if metadata.any (fun kv => kv.1 == "error") then ⟨.jsonB (jsonOfObj metadata), 400⟩
        else
          let transcript_text :=
            match tr with
            | .ok items => String.intercalate " " items
            | .exn _ => "Transcript not available."
          ⟨.jsonB [("metadata", JVal.obj metadata), ("transcript", .leaf (.s transcript_text))],
            200⟩
  else ⟨.jsonB [("error", .leaf (.s "Request must be in JSON format"))], 400⟩

/-- Root-level alias, so that the src/api/index.py copy can refer to the
src/app.py function from inside its own namespace. -/
abbrev appGetVideoMetadata := get_video_metadata

/-- src/api/index.py `get_video_metadata`: identical to the src/app.py body
except that the API key placed into the outbound request parameters is the
caller's; the key only affects the outbound call, which is abstracted by
`outcome`. -/
def ApiIndex.get_video_metadata (video_id : String) (api_key : String) (outcome : ApiOutcome) :
    JObj :=
  let _ := api_key
  appGetVideoMetadata video_id outcome

/-- Embedding of src/api/index.py `extract_metadata`: as the src/app.py handler
but requiring the `X-API-Key` header right after the preflight check, before
the body is parsed. -/
def ApiIndex.extract_metadata (req : ExtractRequest) (api : ApiOutcome) (tr : TranscriptFetch) :
    HResponse :=
  if req.method = "OPTIONS" then ⟨.rawB "", 200⟩
  else
    match req.apiKey with
    | none => ⟨.jsonB [("error", .leaf (.s "API key is required in the X-API-Key header"))], 401⟩
    | some key =>
      if req.isJson then
        match req.jsonParse with
        | .error e => ⟨.jsonB [("error", .leaf (.s ("Invalid JSON format: " ++ e)))], 400⟩
        | .ok none => ⟨.jsonB [("error", .leaf (.s "'youtube_url' is required"))], 400⟩
        | .ok (some url) =>
          match extract_video_id url with
          | none =>
            ⟨.jsonB [("error", .leaf (.s "Could not extract valid YouTube video ID"))], 400⟩
          | some vid =>
            let metadata := ApiIndex.get_video_metadata vid key api
            if metadata.any (fun kv => kv.1 == "error") then ⟨.jsonB (jsonOfObj metadata), 400⟩
            else
              let transcript_text :=
                match tr with
                | .ok items => String.intercalate " " items
                | .exn _ => "Transcript not available."
              ⟨.jsonB [("metadata", JVal.obj metadata),
                  ("transcript", .leaf (.s transcript_text))], 200⟩
      else ⟨.jsonB [("error", .leaf (.s "Request must be in JSON format"))], 400⟩

/-! ## The transcript-acquisition fallback engine

The classified multi-strategy fallback engine described by the specification
(§4.2) belongs to a revision of the service that is not present under src/
(the two handlers above call the transcript provider exactly once).  It is
therefore modelled from the specification's own words; every definition in
this section carries a `Modelled from the spec:` comment. -/

/-- Modelled from the spec: a case-insensitive substring test, used both by the
lyrics guard (the description "contains the literal case-insensitive substring
lyrics") and by the rate-limit heuristic ("the upstream error text contains
blocked or ip, case-insensitive"). -/
def listContainsSub (hay pat : List Char) : Bool :=
  match hay with
  | [] => pat.isEmpty
  | _ :: t => pat.isPrefixOf hay || listContainsSub t pat

def contains_icL (t pat : List Char) : Bool := listContainsSub (toLowerL t) (toLowerL pat)

def contains_ic (s pat : String) : Bool := contains_icL s.data pat.data

/-- Split on newlines, as Python `str.split("\n")` (empty pieces kept). -/
def splitLinesAux : List Char → List Char → List (List Char)
  | [], acc => [acc.reverse]
  | c :: cs, acc =>
    if c = '\n' then acc.reverse :: splitLinesAux cs [] else splitLinesAux cs (c :: acc)

def splitLines (s : String) : List (List Char) := splitLinesAux s.data []

/-- Modelled from the spec: how the transcript provider signals failure —
`TranscriptsDisabled`, `NoTranscriptFound`, or a generic failure with message
text (§6). -/
inductive ProviderFail where
  | disabled
  | notFound
  | generic (msg : String)
deriving DecidableEq

/-- Modelled from the spec: the failure classification presented to the caller
(§4.2). -/
inductive FailureReason where
  | disabled
  | notFound
  | rateLimitedOrBlocked
  | unknown (msg : String)
deriving DecidableEq

/-- Modelled from the spec: `strategy-used` of a `TranscriptResult` (§3). -/
inductive StrategyKind where
  | manual
  | autoGenerated
  | otherLanguage (lang : String)
  | lyricsFromDescription
  | noStrategy
deriving DecidableEq

/-- Strategy positions of the ordered fallback list, without payloads. -/
inductive StratId where
  | manualS
  | autoS
  | anyS
  | lyricsS
deriving DecidableEq

/-- Modelled from the spec: a `TranscriptRequest` (§3) — identifier, optional
raw description text, optional proxy-usage flag. -/
structure TranscriptRequest where
  identifier : String
  description : Option String
  useProxy : Bool
deriving DecidableEq

/-- Modelled from the spec: the injected transcript-fetch capability (§6) —
fetch a manually-authored transcript in the preferred language set, an
auto-generated one, or an arbitrary available one (with the language tag it
actually used). -/
structure TranscriptProvider where
  manual : Except ProviderFail String
  autoGenerated : Except ProviderFail String
  anyLanguage : Except ProviderFail (String × String)
deriving DecidableEq

/-- Modelled from the spec: a `TranscriptResult` (§3). -/
structure TranscriptResult where
  success : Bool
  text : String
  strategyUsed : StrategyKind
  failureReason : Option FailureReason
deriving DecidableEq

/-- Modelled from the spec: failure classification — `RateLimitedOrBlocked`
when the upstream error text contains "blocked" or "ip" case-insensitively,
`Unknown` wrapping any other message (§4.2). -/
def classify_failure : ProviderFail → FailureReason
  | .disabled => .disabled
  | .notFound => .notFound
  | .generic m =>
    if contains_ic m "blocked" || contains_ic m "ip" then .rateLimitedOrBlocked
    else .unknown m

/-- Modelled from the spec: the description-side guard of strategy 4 — the
description contains "lyrics" case-insensitively and its length exceeds 500
characters (§4.2). -/
def lyrics_conditions (desc : String) : Bool :=
  contains_ic desc "lyrics" && decide (500 < desc.length)

/-- Modelled from the spec: stop marker of the lyrics block (§4.2 step b) — a
line starting with `http` or `#`, or containing `subscribe` or `follow`
case-insensitively. -/
def is_stop_line (t : List Char) : Bool :=
  ("http".data).isPrefixOf t || ("#".data).isPrefixOf t
    || contains_icL t ("subscribe".data) || contains_icL t ("follow".data)

/-- Modelled from the spec: start marker of the lyrics block (§4.2 step a). -/
def is_lyrics_marker (l : List Char) : Bool :=
  let t := toLowerL (trimWs l)
  t == "lyrics:".data || t == "lyrics".data || contains_icL t ("lyrics:".data)

/-- Modelled from the spec: collect the non-blank lines up to the first stop
marker (§4.2 steps b and c). -/
def collect_until_stop : List (List Char) → List (List Char)
  | [] => []
  | l :: ls =>
    let t := trimWs l
    if is_stop_line t then []
    else if t.isEmpty then collect_until_stop ls
    else t :: collect_until_stop ls

/-- Modelled from the spec: scan for the lyrics marker and collect the block
after it (§4.2 steps a–c). -/
def stage1 : List (List Char) → List (List Char)
  | [] => []
  | l :: ls => if is_lyrics_marker l then collect_until_stop ls else stage1 ls

def section_words : List (List Char) :=
  ["verse".data, "chorus".data, "bridge".data, "hook".data, "outro".data, "intro".data]

/-- Modelled from the spec: a section marker — one of the section words
optionally followed by a number and/or colon (§4.2 step d). -/
def is_section_marker (l : List Char) : Bool :=
  let t := toLowerL (trimWs l)
  section_words.any (fun w =>
    w.isPrefixOf t && (t.drop w.length).all (fun c => c.isDigit || c = ' ' || c = ':'))

/-- Non-blank, non-`http`-prefixed line, as collected after a section marker. -/
def qual_line (l : List Char) : Bool :=
  let t := trimWs l
  !t.isEmpty && !("http".data).isPrefixOf t

/-- Modelled from the spec: collect up to 20 qualifying lines after each
section marker (§4.2 step d). -/
def stage2 : List (List Char) → List (List Char)
  | [] => []
  | l :: ls =>
    if is_section_marker l then ((ls.takeWhile qual_line).take 20).map trimWs ++ stage2 ls
    else stage2 ls

/-- Modelled from the spec: a "short" line of the density heuristic — trimmed,
non-empty, length below 100, not starting with `http`, not containing `#`
(§4.2 step e). -/
def short_line (l : List Char) : Bool :=
  let t := trimWs l
  !t.isEmpty && t.length < 100 && !("http".data).isPrefixOf t && !(t.contains '#')

/-- Modelled from the spec: the density heuristic — commit each maximal run of
consecutive short lines that reached at least 4 lines (§4.2 step e). -/
def stage3go : List (List Char) → List (List Char) → List (List Char)
  | [], run => if 4 ≤ run.length then run.reverse else []
  | l :: ls, run =>
    if short_line l then stage3go ls (trimWs l :: run)
    else (if 4 ≤ run.length then run.reverse else []) ++ stage3go ls []

/-- Modelled from the spec: the lyrics-extraction sub-algorithm of strategy 4
(§4.2 steps a–f): marker block, then section markers, then the density
heuristic; collected lines joined with newlines, empty when nothing
qualified. -/
def extract_lyrics (desc : String) : String :=
  let ls := splitLines desc
  let r1 := stage1 ls
  let r2 := if r1.isEmpty then stage2 ls else r1
  let r3 := if r2.isEmpty then stage3go ls [] else r2
  String.mk (List.intercalate ("\n".data) r3)

/-- Modelled from the spec: the fallback engine (§4.2) — manual, then
auto-generated, then any-language, each attempted only after the previous
failed; lyrics-from-description only when the classified failure is
`NoTranscriptFound` and the description guard holds; on overall failure the
text is a non-empty placeholder and the classified reason is reported. -/
def run_fallback (req : TranscriptRequest) (p : TranscriptProvider) : TranscriptResult :=
  match p.manual with
  | .ok t => ⟨true, t, .manual, none⟩
  | .error _ =>
  match p.autoGenerated with
  | .ok t => ⟨true, t, .autoGenerated, none⟩
  | .error _ =>
  match p.anyLanguage with
  | .ok lt => ⟨true, lt.2, .otherLanguage lt.1, none⟩
  | .error f3 =>
    let reason := classify_failure f3
    let desc := req.description.getD ""
    if (reason == FailureReason.notFound) && lyrics_conditions desc then
      let ly := extract_lyrics desc
      if ly == "" then ⟨false, "Transcript not available.", .noStrategy, some reason⟩
      else ⟨true, ly, .lyricsFromDescription, none⟩
    else ⟨false, "Transcript not available.", .noStrategy, some reason⟩

/-- The fixed strategy order of the fallback engine. -/
def strategyOrder : List StratId := [.manualS, .autoS, .anyS, .lyricsS]

/-- Declarative success of each strategy, independent of the engine's control
flow: the provider-backed strategies succeed when the provider returns a
transcript; the lyrics strategy succeeds when the any-language fetch failed
with a classified `NoTranscriptFound`, the description guard holds, and the
extraction is non-empty. -/
def strategySucceeds (req : TranscriptRequest) (p : TranscriptProvider) : StratId → Bool
  | .manualS => match p.manual with | .ok _ => true | .error _ => false
  | .autoS => match p.autoGenerated with | .ok _ => true | .error _ => false
  | .anyS => match p.anyLanguage with | .ok _ => true | .error _ => false
  | .lyricsS =>
    match p.anyLanguage with
    | .ok _ => false
    | .error f3 =>
      (classify_failure f3 == FailureReason.notFound)
        && lyrics_conditions (req.description.getD "")
        && !(extract_lyrics (req.description.getD "") == "")

/-- The strategy position recorded by a result. -/
def usedId : StrategyKind → Option StratId
  | .manual => some .manualS
  | .autoGenerated => some .autoS
  | .otherLanguage _ => some .anyS
  | .lyricsFromDescription => some .lyricsS
  | .noStrategy => none

/-! ## Lemmas about the resolver -/

theorem stripP_append (p rest : List Char) : stripP p (p ++ rest) = some rest := by
  induction p with
  | nil => rfl
  | cons a ps ih => simp [stripP, ih]

theorem stripP_blocked (p l : List Char) (hp : ∃ c ∈ p, urlSafeChar c = false)
    (hl : ∀ c ∈ l, urlSafeChar c = true) : stripP p l = none := by
  induction p generalizing l with
  | nil => rcases hp with ⟨c, hc, _⟩; simp at hc
  | cons a ps ih =>
    cases l with
    | nil => rfl
    | cons b bs =>
      simp only [stripP]
      by_cases hba : b = a
      · subst hba
        have hb : urlSafeChar b = true := hl b (List.mem_cons_self b bs)
        rcases hp with ⟨c, hc, hcu⟩
        rcases List.mem_cons.mp hc with h1 | h2
        · subst h1; rw [hb] at hcu; cases hcu
        · simp [ih bs ⟨c, h2, hcu⟩ (fun c hc => hl c (List.mem_cons_of_mem _ hc))]
      · simp [hba]

theorem urlSafe_not_excluded (c : Char) (h : urlSafeChar c = true) : excludedChar c = false := by
  rcases Bool.eq_false_or_eq_true (excludedChar c) with ht | hf
  · exfalso
    unfold excludedChar at ht
    simp only [Bool.or_eq_true, decide_eq_true_eq] at ht
    rcases ht with ((h1 | h1) | h1) | h1 <;> subst h1 <;> exact absurd h (by decide)
  · exact hf

theorem g6run_full (l : List Char) (h11 : l.length = 11)
    (hx : ∀ c ∈ l, excludedChar c = false) : g6run l = some (String.mk l) := by
  have ht : l.take 11 = l := by rw [← h11]; exact List.take_length l
  unfold g6run
  rw [ht, h11, if_pos ⟨rfl, hx⟩]

theorem qvAt_safe (l : List Char) (hl : ∀ c ∈ l, urlSafeChar c = true) (k : Nat) :
    qvAt l k = false := by
  unfold qvAt
  cases hd : l.drop k with
  | nil => rfl
  | cons a t =>
    cases t with
    | nil => rfl
    | cons b t2 =>
      cases t2 with
      | nil => rfl
      | cons c t3 =>
        have ha : a ∈ l := List.mem_of_mem_drop (hd ▸ List.mem_cons_self a _)
        have ha' : a ≠ '?' := by
          intro hq; subst hq; exact absurd (hl _ ha) (by decide)
        simp [ha']

theorem dotPlusQvAux_safe (l : List Char) (hl : ∀ c ∈ l, urlSafeChar c = true) :
    ∀ n, dotPlusQvAux l n = none := by
  intro n
  induction n with
  | zero => rfl
  | succ k ih => simp [dotPlusQvAux, qvAt_safe l hl, alt, ih]

theorem g5run_watch (id : List Char) (h11 : id.length = 11)
    (hx : ∀ c ∈ id, excludedChar c = false) :
    g5run ("watch?v=".data ++ id) = some (String.mk id) := by
  unfold g5run
  rw [stripP_append, Option.some_bind, g6run_full id h11 hx]
  rfl

theorem g5run_embed (id : List Char) (h11 : id.length = 11)
    (hx : ∀ c ∈ id, excludedChar c = false) :
    g5run ("embed/".data ++ id) = some (String.mk id) := by
  unfold g5run
  rw [show stripP ("watch?v=".data) ("embed/".data ++ id) = none from rfl, Option.none_bind,
    stripP_append, Option.some_bind, g6run_full id h11 hx]
  rfl

theorem g5run_v (id : List Char) (h11 : id.length = 11)
    (hx : ∀ c ∈ id, excludedChar c = false) :
    g5run ("v/".data ++ id) = some (String.mk id) := by
  unfold g5run
  rw [show stripP ("watch?v=".data) ("v/".data ++ id) = none from rfl,
    show stripP ("embed/".data) ("v/".data ++ id) = none from rfl,
    stripP_append, Option.some_bind, g6run_full id h11 hx]
  rfl

theorem g5run_bare (id : List Char) (h11 : id.length = 11)
    (hs : ∀ c ∈ id, urlSafeChar c = true) :
    g5run id = some (String.mk id) := by
  have hx : ∀ c ∈ id, excludedChar c = false := fun c hc => urlSafe_not_excluded c (hs c hc)
  unfold g5run dotPlusQv
  rw [stripP_blocked _ _ ⟨'?', by decide, by decide⟩ hs,
    stripP_blocked ("embed/".data) _ ⟨'/', by decide, by decide⟩ hs,
    stripP_blocked ("v/".data) _ ⟨'/', by decide, by decide⟩ hs,
    dotPlusQvAux_safe id hs, g6run_full id h11 hx]
  rfl

theorem schemeRun_red_https {l : List Char} {x : String} (h : wwwRun l = some x) :
    schemeRun ("https://".data ++ l) = some x := by
  unfold schemeRun
  rw [stripP_append, Option.some_bind, h]
  rfl

theorem schemeRun_red_http {l : List Char} {x : String} (h : wwwRun l = some x) :
    schemeRun ("http://".data ++ l) = some x := by
  unfold schemeRun
  rw [show stripP ("https://".data) ("http://".data ++ l) = none from rfl, Option.none_bind,
    stripP_append, Option.some_bind, h]
  rfl

theorem schemeRun_skip {c : Char} {l : List Char} {x : String} (hc : ¬c = 'h')
    (h : wwwRun (c :: l) = some x) : schemeRun (c :: l) = some x := by
  unfold schemeRun
  rw [show ("https://".data : List Char) = 'h' :: "ttps://".data from rfl,
    show ("http://".data : List Char) = 'h' :: "ttp://".data from rfl]
  simp only [stripP, if_neg hc, Option.none_bind]
  exact h

theorem wwwRun_red_www {l : List Char} {x : String} (h : hostRun l = some x) :
    wwwRun ("www.".data ++ l) = some x := by
  unfold wwwRun
  rw [stripP_append, Option.some_bind, h]
  rfl

theorem wwwRun_skip {c : Char} {l : List Char} {x : String} (hc : ¬c = 'w')
    (h : hostRun (c :: l) = some x) : wwwRun (c :: l) = some x := by
  unfold wwwRun
  rw [show ("www.".data : List Char) = 'w' :: "ww.".data from rfl]
  simp only [stripP, if_neg hc, Option.none_bind]
  exact h

theorem hostRun_red_ytcom {l : List Char} {x : String} (h : g5run l = some x) :
    hostRun ("youtube.com/".data ++ l) = some x := by
  have hdom : domRun ("com/".data ++ l) = some x := by
    unfold domRun
    rw [stripP_append, Option.some_bind, h]
    rfl
  unfold hostRun
  rw [show ("youtube.com/".data ++ l : List Char) = "youtube.".data ++ ("com/".data ++ l)
      from rfl, stripP_append, Option.some_bind, hdom]
  rfl

theorem hostRun_red_ytbe {l : List Char} {x : String} (h : g5run l = some x) :
    hostRun ("youtu.be/".data ++ l) = some x := by
  have hdom : domRun ("be/".data ++ l) = some x := by
    unfold domRun
    rw [show stripP ("com/".data) ("be/".data ++ l) = none from rfl, Option.none_bind,
      stripP_append, Option.some_bind, h]
    rfl
  unfold hostRun
  rw [show stripP ("youtube.".data) ("youtu.be/".data ++ l) = none from rfl, Option.none_bind,
    show ("youtu.be/".data ++ l : List Char) = "youtu.".data ++ ("be/".data ++ l) from rfl,
    stripP_append, Option.some_bind, hdom]
  rfl

theorem schemeRun_pre {pre : String} (hp : pre ∈ urlPrefixes) {l : List Char} {x : String}
    (h : hostRun ('y' :: l) = some x) : schemeRun (pre.data ++ 'y' :: l) = some x := by
  simp only [urlPrefixes, List.mem_cons, List.not_mem_nil, or_false] at hp
  rcases hp with rfl | rfl | rfl | rfl | rfl | rfl
  · exact schemeRun_skip (by decide) (wwwRun_skip (by decide) h)
  · exact schemeRun_red_http (wwwRun_skip (by decide) h)
  · exact schemeRun_red_https (wwwRun_skip (by decide) h)
  · exact schemeRun_skip (by decide) (wwwRun_red_www h)
  · exact schemeRun_red_http (wwwRun_red_www h)
  · exact schemeRun_red_https (wwwRun_red_www h)

theorem alt_eq_some {α : Type} {a b : Option α} {x : α} (h : alt a b = some x) :
    a = some x ∨ b = some x := by
  cases a with
  | some y => left; exact h
  | none => right; exact h

theorem g6run_sound {l : List Char} {t : String} (h : g6run l = some t) : tokenShape t := by
  unfold g6run at h
  split at h
  · rename_i hc
    cases h
    exact ⟨hc.1, hc.2⟩
  · cases h

theorem bind_sound {o : Option (List Char)} {f : List Char → Option String} {t : String}
    (hf : ∀ l r, f l = some r → tokenShape r) (h : o.bind f = some t) : tokenShape t := by
  cases o with
  | none => cases h
  | some l => exact hf l t h

theorem dotPlusQvAux_sound {l : List Char} {t : String} :
    ∀ {n : Nat}, dotPlusQvAux l n = some t → tokenShape t := by
  intro n
  induction n with
  | zero => intro h; cases h
  | succ k ih =>
    intro h
    rcases alt_eq_some h with h1 | h2
    · split at h1
      · exact g6run_sound h1
      · cases h1
    · exact ih h2

theorem g5run_sound {l : List Char} {t : String} (h : g5run l = some t) : tokenShape t := by
  unfold g5run at h
  rcases alt_eq_some h with h1 | h
  · exact bind_sound (fun _ _ => g6run_sound) h1
  rcases alt_eq_some h with h1 | h
  · exact bind_sound (fun _ _ => g6run_sound) h1
  rcases alt_eq_some h with h1 | h
  · exact bind_sound (fun _ _ => g6run_sound) h1
  rcases alt_eq_some h with h1 | h1
  · exact dotPlusQvAux_sound h1
  · exact g6run_sound h1

theorem domRun_sound {l : List Char} {t : String} (h : domRun l = some t) : tokenShape t := by
  unfold domRun at h
  rcases alt_eq_some h with h1 | h1 <;>
    exact bind_sound (fun _ _ => g5run_sound) h1

theorem hostRun_sound {l : List Char} {t : String} (h : hostRun l = some t) : tokenShape t := by
  unfold hostRun at h
  rcases alt_eq_some h with h1 | h
  · exact bind_sound (fun _ _ => domRun_sound) h1
  rcases alt_eq_some h with h1 | h1 <;>
    exact bind_sound (fun _ _ => domRun_sound) h1

theorem wwwRun_sound {l : List Char} {t : String} (h : wwwRun l = some t) : tokenShape t := by
  unfold wwwRun at h
  rcases alt_eq_some h with h1 | h1
  · exact bind_sound (fun _ _ => hostRun_sound) h1
  · exact hostRun_sound h1

theorem schemeRun_sound {l : List Char} {t : String} (h : schemeRun l = some t) : tokenShape t := by
  unfold schemeRun at h
  rcases alt_eq_some h with h1 | h
  · exact bind_sound (fun _ _ => wwwRun_sound) h1
  rcases alt_eq_some h with h1 | h1
  · exact bind_sound (fun _ _ => wwwRun_sound) h1
  · exact wwwRun_sound h1

theorem extract_video_id_sound {s t : String} (h : extract_video_id s = some t) : tokenShape t :=
  schemeRun_sound h

/-! ## Claim theorems -/

/-- C3: for every 11-character identifier drawn from the URL-safe character
set, the resolver returns that same identifier for each of the recognized URL
shapes `watch?v=ID`, `embed/ID`, `youtu.be/ID` and `v/ID`, with any optional
scheme and `www.` prefix. -/
theorem extract_same_id_all_shapes (pre : String) (hp : pre ∈ urlPrefixes) (id : String)
    (h11 : id.length = 11) (hsafe : ∀ c ∈ id.data, urlSafeChar c = true) :
    extract_video_id (pre ++ "youtube.com/watch?v=" ++ id) = some id ∧
    extract_video_id (pre ++ "youtube.com/embed/" ++ id) = some id ∧
    extract_video_id (pre ++ "youtu.be/" ++ id) = some id ∧
    extract_video_id (pre ++ "youtube.com/v/" ++ id) = some id := by
  have h11' : id.data.length = 11 := h11
  have hx : ∀ c ∈ id.data, excludedChar c = false :=
    fun c hc => urlSafe_not_excluded c (hsafe c hc)
  have hw : g5run ("watch?v=".data ++ id.data) = some id := g5run_watch id.data h11' hx
  have he : g5run ("embed/".data ++ id.data) = some id := g5run_embed id.data h11' hx
  have hv : g5run ("v/".data ++ id.data) = some id := g5run_v id.data h11' hx
  have hb : g5run id.data = some id := g5run_bare id.data h11' hsafe
  refine ⟨?_, ?_, ?_, ?_⟩
  · show schemeRun (pre ++ "youtube.com/watch?v=" ++ id).data = some id
    rw [String.data_append, String.data_append, List.append_assoc]
    exact schemeRun_pre hp (hostRun_red_ytcom hw)
  · show schemeRun (pre ++ "youtube.com/embed/" ++ id).data = some id
    rw [String.data_append, String.data_append, List.append_assoc]
    exact schemeRun_pre hp (hostRun_red_ytcom he)
  · show schemeRun (pre ++ "youtu.be/" ++ id).data = some id
    rw [String.data_append, String.data_append, List.append_assoc]
    exact schemeRun_pre hp (hostRun_red_ytbe hb)
  · show schemeRun (pre ++ "youtube.com/v/" ++ id).data = some id
    rw [String.data_append, String.data_append, List.append_assoc]
    exact schemeRun_pre hp (hostRun_red_ytcom hv)

/-- Witness for C3 at the prefix `https://www.` and a concrete identifier. -/
theorem extract_same_id_all_shapes_witness :
    extract_video_id ("https://www." ++ "youtube.com/watch?v=" ++ "dQw4w9WgXcQ")
      = some "dQw4w9WgXcQ" ∧
    extract_video_id ("https://www." ++ "youtube.com/embed/" ++ "dQw4w9WgXcQ")
      = some "dQw4w9WgXcQ" ∧
    extract_video_id ("https://www." ++ "youtu.be/" ++ "dQw4w9WgXcQ")
      = some "dQw4w9WgXcQ" ∧
    extract_video_id ("https://www." ++ "youtube.com/v/" ++ "dQw4w9WgXcQ")
      = some "dQw4w9WgXcQ" :=
  extract_same_id_all_shapes "https://www." (by decide) "dQw4w9WgXcQ" (by decide) (by decide)

/-- C4 counterexample: the claim requires rejection of any would-be token that
is not exactly 11 URL-safe characters, but the regex token class is
`[^&=%\?]` — not the URL-safe set — and `re.match` does not anchor the end of
the string: a 12-character run containing `!` is not rejected; its first 11
characters (still containing `!`) are returned. -/
theorem extract_video_id_truncates_cex :
    extract_video_id "https://www.youtube.com/watch?v=ab!cdefghijk" = some "ab!cdefghij" := by
  decide

/-- C4 amended: every identifier the resolver returns consists of exactly 11
characters drawn from the complement of `{&, =, %, ?}`; runs shorter than 11
such characters fail to match (the resolver returns nothing), while longer
runs are truncated to their first 11 characters rather than rejected. -/
theorem extract_token_class_sound (s t : String) (h : extract_video_id s = some t) :
    t.length = 11 ∧ ∀ c ∈ t.data, ¬(c = '&' ∨ c = '=' ∨ c = '%' ∨ c = '?') := by
  obtain ⟨h11, hx⟩ := extract_video_id_sound h
  refine ⟨h11, fun c hc hor => ?_⟩
  have hc' := hx c hc
  rcases hor with h1 | h1 | h1 | h1 <;> subst h1 <;> exact absurd hc' (by decide)

/-- Witness for C4's amended statement at a concrete resolvable URL. -/
theorem extract_token_class_sound_witness :
    "xXa-b_c0Z9Q".length = 11 ∧
    ∀ c ∈ "xXa-b_c0Z9Q".data, ¬(c = '&' ∨ c = '=' ∨ c = '%' ∨ c = '?') :=
  extract_token_class_sound "youtube.com/watch?v=xXa-b_c0Z9Q" "xXa-b_c0Z9Q" (by decide)

/-- C10: whenever the resolver extracts an identifier from any input string,
resolving the canonical watch URL that `get_video_metadata` builds from that
identifier returns the same identifier. -/
theorem extract_video_id_roundtrip (s id : String) (h : extract_video_id s = some id) :
    extract_video_id (canonical_video_url id) = some id := by
  obtain ⟨h11, hx⟩ := extract_video_id_sound h
  have h11' : id.data.length = 11 := h11
  have hw : g5run ("watch?v=".data ++ id.data) = some id := g5run_watch id.data h11' hx
  show schemeRun ("https://www.youtube.com/watch?v=" ++ id).data = some id
  rw [String.data_append]
  exact schemeRun_red_https (wwwRun_red_www (hostRun_red_ytcom hw))

/-- Witness for C10 at a concrete short-URL input. -/
theorem extract_video_id_roundtrip_witness :
    extract_video_id (canonical_video_url "a1B2c3D4e5F") = some "a1B2c3D4e5F" :=
  extract_video_id_roundtrip "youtu.be/a1B2c3D4e5F" "a1B2c3D4e5F" (by decide)

/-- C6: a non-preflight JSON request whose `youtube_url` yields no video
identifier — such as the string `not a url` — is answered with HTTP 400 and
the body `{"error": "Could not extract valid YouTube video ID"}`, regardless
of the upstream outcomes. -/
theorem invalid_url_rejected (req : ExtractRequest) (api : ApiOutcome) (tr : TranscriptFetch)
    (url : String) (hm : ¬req.method = "OPTIONS") (hj : req.isJson = true)
    (hp : req.jsonParse = Except.ok (some url)) (hu : extract_video_id url = none) :
    App.extract_metadata req api tr =
      ⟨RespBody.jsonB [("error", JVal.leaf (JLeaf.s "Could not extract valid YouTube video ID"))],
        400⟩ := by
  obtain ⟨method, apiKey, isJson, jsonParse⟩ := req
  dsimp only at hm hj hp
  subst hj; subst hp
  simp only [App.extract_metadata, if_neg hm, hu]
  rfl

/-- Witness for C6 at the spec's concrete input `not a url`. -/
theorem invalid_url_rejected_witness :
    App.extract_metadata ⟨"POST", none, true, Except.ok (some "not a url")⟩ (ApiOutcome.ok [])
        (TranscriptFetch.exn "no transcript") =
      ⟨RespBody.jsonB [("error", JVal.leaf (JLeaf.s "Could not extract valid YouTube video ID"))],
        400⟩ :=
  invalid_url_rejected _ _ _ "not a url" (by decide) rfl rfl (by decide)

/-- C5 counterexample: at a request whose URL resolves and whose metadata
fetch succeeds, with the transcript fetch raising, src/app.py answers 200 with
a body holding exactly the keys `metadata` and `transcript`; the
`transcript_available` field the claim requires does not exist in the
response. -/
theorem transcript_failure_cex :
    (App.extract_metadata ⟨"POST", none, true, Except.ok (some "https://youtu.be/zzzzzzzzzzz")⟩
        (ApiOutcome.ok [⟨none, none, none, none, none, none⟩]) (TranscriptFetch.exn "err")).status
      = 200 ∧
    bodyKeys (App.extract_metadata ⟨"POST", none, true,
        Except.ok (some "https://youtu.be/zzzzzzzzzzz")⟩
        (ApiOutcome.ok [⟨none, none, none, none, none, none⟩]) (TranscriptFetch.exn "err"))
      = ["metadata", "transcript"] ∧
    "transcript_available" ∉ bodyKeys (App.extract_metadata ⟨"POST", none, true,
        Except.ok (some "https://youtu.be/zzzzzzzzzzz")⟩
        (ApiOutcome.ok [⟨none, none, none, none, none, none⟩]) (TranscriptFetch.exn "err")) := by
  decide

/-- C5 amended (the revisions in src/ emit no `transcript_available` field):
when the URL resolves and the metadata fetch succeeds, a transcript-fetch
failure of any kind is not surfaced as an HTTP error — the endpoint answers
200 and the `transcript` field holds the non-empty placeholder
`Transcript not available.`. -/
theorem transcript_failure_folded (req : ExtractRequest) (api : ApiOutcome)
    (url vid emsg : String) (hm : ¬req.method = "OPTIONS") (hj : req.isJson = true)
    (hp : req.jsonParse = Except.ok (some url)) (hv : extract_video_id url = some vid)
    (hok : (get_video_metadata vid api).any (fun kv => kv.1 == "error") = false) :
    App.extract_metadata req api (TranscriptFetch.exn emsg) =
      ⟨RespBody.jsonB [("metadata", JVal.obj (get_video_metadata vid api)),
        ("transcript", JVal.leaf (JLeaf.s "Transcript not available."))], 200⟩ ∧
    "Transcript not available." ≠ "" := by
  refine ⟨?_, by decide⟩
  obtain ⟨method, apiKey, isJson, jsonParse⟩ := req
  dsimp only at hm hj hp
  subst hj; subst hp
  simp only [App.extract_metadata, if_neg hm, hv, hok]
  rfl

/-- Witness for C5's amended statement at a concrete successful request. -/
theorem transcript_failure_folded_witness :
    App.extract_metadata
        ⟨"POST", none, true, Except.ok (some "https://www.youtube.com/embed/abcdefghijk")⟩
        (ApiOutcome.ok [⟨some "T", some "C", some "D", some "2020-01-01", some "PT2M", some "7"⟩])
        (TranscriptFetch.exn "boom") =
      ⟨RespBody.jsonB [("metadata", JVal.obj (get_video_metadata "abcdefghijk"
          (ApiOutcome.ok
            [⟨some "T", some "C", some "D", some "2020-01-01", some "PT2M", some "7"⟩]))),
        ("transcript", JVal.leaf (JLeaf.s "Transcript not available."))], 200⟩ ∧
    "Transcript not available." ≠ "" :=
  transcript_failure_folded _ _ "https://www.youtube.com/embed/abcdefghijk" "abcdefghijk" "boom"
    (by decide) rfl rfl (by decide) (by decide)

/-- C7 counterexample: with the `X-API-Key` header absent, the body returned
by src/api/index.py is `{"error": "API key is required in the X-API-Key
header"}` — not the `{"error": "API key is required"}` the claim states. -/
theorem api_key_message_cex :
    (ApiIndex.extract_metadata ⟨"POST", none, true, Except.ok none⟩ (ApiOutcome.ok [])
        (TranscriptFetch.exn "e")).status = 401 ∧
    (ApiIndex.extract_metadata ⟨"POST", none, true, Except.ok none⟩ (ApiOutcome.ok [])
        (TranscriptFetch.exn "e")).body ≠
      RespBody.jsonB [("error", JVal.leaf (JLeaf.s "API key is required"))] ∧
    (ApiIndex.extract_metadata ⟨"POST", none, true, Except.ok none⟩ (ApiOutcome.ok [])
        (TranscriptFetch.exn "e")).body =
      RespBody.jsonB
        [("error", JVal.leaf (JLeaf.s "API key is required in the X-API-Key header"))] := by
  decide

/-- C7 amended: with the `X-API-Key` header absent, src/api/index.py answers
HTTP 401 before reading the body or calling upstream — uniformly in the body
and the upstream outcomes — with the error message `API key is required in the
X-API-Key header`. -/
theorem api_key_gate (req : ExtractRequest) (api : ApiOutcome) (tr : TranscriptFetch)
    (hm : ¬req.method = "OPTIONS") (hk : req.apiKey = none) :
    ApiIndex.extract_metadata req api tr =
      ⟨RespBody.jsonB
        [("error", JVal.leaf (JLeaf.s "API key is required in the X-API-Key header"))], 401⟩ := by
  unfold ApiIndex.extract_metadata
  rw [if_neg hm, hk]

/-- Witness for C7's amended statement, with an unparsed body. -/
theorem api_key_gate_witness :
    ApiIndex.extract_metadata ⟨"GET", none, false, Except.error "bad json"⟩ (ApiOutcome.ok [])
        (TranscriptFetch.ok []) =
      ⟨RespBody.jsonB
        [("error", JVal.leaf (JLeaf.s "API key is required in the X-API-Key header"))], 401⟩ :=
  api_key_gate _ _ _ (by decide) rfl

/-- C8: on the success path, the `duration_seconds` field is the
integer-second conversion of the item's ISO-8601 duration string, that value
is non-negative, and a missing duration (defaulted to `PT0S`) yields 0. -/
theorem duration_to_seconds (vid : String) (it : ApiItem) (rest : List ApiItem) (n : Nat)
    (vc : Int) (hvc : viewCountVal it = some vc)
    (hd : parse_duration_seconds (it.duration.getD "PT0S") = some n) :
    lookupKey (get_video_metadata vid (ApiOutcome.ok (it :: rest))) "duration_seconds"
        = some (JLeaf.i (n : Int)) ∧
    (0 : Int) ≤ (n : Int) ∧ (it.duration = none → n = 0) := by
  refine ⟨?_, Int.ofNat_nonneg n, fun hnone => ?_⟩
  · simp only [get_video_metadata, hd, hvc]
    rfl
  · rw [hnone, Option.getD_none] at hd
    have h0 : parse_duration_seconds "PT0S" = some 0 := by decide
    rw [h0] at hd
    exact (Option.some_inj.mp hd).symm

/-- Witness for C8: a 90-second duration string and a parsed view count. -/
theorem duration_to_seconds_witness :
    lookupKey (get_video_metadata "abcdefghijk" (ApiOutcome.ok
        [⟨some "T", some "C", some "D", some "2020-01-01", some "PT1M30S", some "42"⟩]))
        "duration_seconds" = some (JLeaf.i ((90 : Nat) : Int)) ∧
    (0 : Int) ≤ ((90 : Nat) : Int) ∧
    ((⟨some "T", some "C", some "D", some "2020-01-01", some "PT1M30S", some "42"⟩ :
        ApiItem).duration = none → (90 : Nat) = 0) :=
  duration_to_seconds "abcdefghijk"
    ⟨some "T", some "C", some "D", some "2020-01-01", some "PT1M30S", some "42"⟩ [] 90 42
    (by decide) (by decide)

/-- C9: `get_video_metadata` is total over all provider outcomes and returns
either a dictionary carrying an `error` message string, or a dictionary with
exactly the eight metadata fields, in order. -/
theorem get_video_metadata_shape (vid : String) (o : ApiOutcome) :
    (∃ m, lookupKey (get_video_metadata vid o) "error" = some (JLeaf.s m)) ∨
    (get_video_metadata vid o).map Prod.fst =
      ["video_id", "video_url", "title", "channel_name", "description", "publish_date",
       "view_count", "duration_seconds"] := by
  cases o with
  | httpErr m => exact Or.inl ⟨"YouTube API error: " ++ m, rfl⟩
  | badJson m => exact Or.inl ⟨"Error processing YouTube data: " ++ m, rfl⟩
  | ok items =>
    cases items with
    | nil => exact Or.inl ⟨"Video not found or not accessible", rfl⟩
    | cons it rest =>
      cases hd : parse_duration_seconds (it.duration.getD "PT0S") with
      | none =>
        refine Or.inl ⟨"Error processing YouTube data: unparsable ISO-8601 duration", ?_⟩
        simp only [get_video_metadata, hd]
        rfl
      | some dsec =>
        cases hv : viewCountVal it with
        | none =>
          refine Or.inl ⟨"Error processing YouTube data: invalid literal for int", ?_⟩
          simp only [get_video_metadata, hd, hv]
          rfl
        | some vc =>
          refine Or.inr ?_
          simp only [get_video_metadata, hd, hv]
          rfl

/-- C1 (engine modelled from the spec): the strategy recorded in the fallback
engine's result is exactly the first strategy of the fixed order
manual → auto-generated → any-language → lyrics-from-description that
succeeds, and the result is a success exactly when some strategy succeeds;
strategies after the first success are never reflected in the result. -/
theorem fallback_first_success (req : TranscriptRequest) (p : TranscriptProvider) :
    usedId (run_fallback req p).strategyUsed = strategyOrder.find? (strategySucceeds req p) ∧
    (run_fallback req p).success = strategyOrder.any (strategySucceeds req p) := by
  rcases p with ⟨m, a, al⟩
  cases m with
  | ok t => exact ⟨rfl, rfl⟩
  | error e1 =>
    cases a with
    | ok t => exact ⟨rfl, rfl⟩
    | error e2 =>
      cases al with
      | ok lt => exact ⟨rfl, rfl⟩
      | error f3 =>
        cases hg : (classify_failure f3 == FailureReason.notFound)
            && lyrics_conditions (req.description.getD "") with
        | false =>
          refine ⟨?_, ?_⟩ <;>
            simp [run_fallback, strategyOrder, strategySucceeds, usedId, hg, List.find?,
              List.any]
        | true =>
          cases he : extract_lyrics (req.description.getD "") == "" with
          | false =>
            refine ⟨?_, ?_⟩ <;>
              simp [run_fallback, strategyOrder, strategySucceeds, usedId, hg, he,
                List.find?, List.any]
          | true =>
            refine ⟨?_, ?_⟩ <;>
              simp [run_fallback, strategyOrder, strategySucceeds, usedId, hg, he,
                List.find?, List.any]

/-- C2 (engine modelled from the spec): the result uses lyrics-from-description
only when the any-language fetch failed with a failure classified
`NoTranscriptFound`, the description contains the case-insensitive substring
`lyrics`, and the description is longer than 500 characters; in particular the
classification is then not `RateLimitedOrBlocked`. -/
theorem lyrics_gate (req : TranscriptRequest) (p : TranscriptProvider) (f3 : ProviderFail)
    (hf : p.anyLanguage = Except.error f3)
    (hs : (run_fallback req p).strategyUsed = StrategyKind.lyricsFromDescription) :
    classify_failure f3 = FailureReason.notFound ∧
    contains_ic (req.description.getD "") "lyrics" = true ∧
    500 < (req.description.getD "").length ∧
    classify_failure f3 ≠ FailureReason.rateLimitedOrBlocked := by
  rcases p with ⟨m, a, al⟩
  dsimp only at hf
  subst hf
  cases m with
  | ok t => simp [run_fallback] at hs
  | error e1 =>
    cases a with
    | ok t => simp [run_fallback] at hs
    | error e2 =>
      simp only [run_fallback] at hs
      split at hs
      · split at hs
        · simp at hs
        · rename_i hg hne
          rw [Bool.and_eq_true] at hg
          obtain ⟨hg1, hg2⟩ := hg
          rw [beq_iff_eq] at hg1
          unfold lyrics_conditions at hg2
          rw [Bool.and_eq_true] at hg2
          obtain ⟨hc, hlen⟩ := hg2
          rw [decide_eq_true_eq] at hlen
          exact ⟨hg1, hc, hlen, by rw [hg1]; decide⟩
      · simp at hs

/-- A concrete music-video description, longer than 500 characters, holding a
`Lyrics:` marker block. -/
def sampleDescription : String :=
  "Enjoy the brand new official music video, out everywhere today.\n" ++
  "Lyrics:\n" ++
  "Morning light is breaking over sleepy silver streets\n" ++
  "Every windowpane is glowing with a gentle golden heat\n" ++
  "We are walking through the garden where the roses grow\n" ++
  "Every petal holds a promise that the winter let go\n" ++
  "Time is just a river running quietly to the sea\n" ++
  "Carry me across the water to the place I want to be\n" ++
  "All the stars above the city sing a quiet melody\n" ++
  "And the moon is keeping rhythm like a heart inside of me\n" ++
  "So we dance until the morning paints the sky in gold\n" ++
  "And the story of the evening is forever ours to hold"

set_option maxRecDepth 100000 in
/-- Witness for C2 at a concrete request whose engine run ends in the
lyrics-from-description strategy. -/
theorem lyrics_gate_witness :
    classify_failure ProviderFail.notFound = FailureReason.notFound ∧
    contains_ic sampleDescription "lyrics" = true ∧
    500 < sampleDescription.length ∧
    classify_failure ProviderFail.notFound ≠ FailureReason.rateLimitedOrBlocked :=
  lyrics_gate ⟨"dQw4w9WgXcQ", some sampleDescription, false⟩
    ⟨Except.error (ProviderFail.generic "boom"), Except.error ProviderFail.notFound,
      Except.error ProviderFail.notFound⟩ ProviderFail.notFound rfl (by decide)
